import Mathlib

/-!
Shallow embedding of pencilblue's `src/include/service/jobs/job_runner.js`.

The `JobRunner` instance state is a structure.  The collaborators are
reified: every DAO write becomes an explicit `DaoCall` value, every
diagnostic-logger write becomes a `SinkEntry` value, and the asynchronous
persistence outcome observed by each fire-and-forget callback is an
`Option String` input (`none` = success, `some stack` = the failure's
stack string).  JavaScript numbers that may be non-numeric are `Option ℚ`
or `JsNumArg` (`none` / `.invalid` standing for NaN and other non-numeric
values); JavaScript arguments that may be absent are `Option` values.
Thrown JavaScript exceptions are modelled with `Except`.
-/

/-- Severity level of a diagnostic-sink write (`pb.log.debug` / `pb.log.error`). -/
inductive Severity
  | debug
  | error
deriving DecidableEq, Repr

/-- One write to the diagnostic logger: the format pattern and the
interpolation arguments it was called with. -/
structure SinkEntry where
  severity : Severity
  pattern : String
  args : List String
deriving DecidableEq, Repr

/-- A field value inside a persisted document: JavaScript strings, numbers,
or `undefined`. -/
inductive JVal
  | str (s : String)
  | num (q : ℚ)
  | undef
deriving DecidableEq, Repr

/-- The document saved by `onStart`: the equality key produced by
`pb.DAO.getIDWhere(this.getId())` plus the fields the source assigns. -/
structure JobRunDoc where
  keyId : Option String
  object_type : String
  name : Option String
  status : String
  progress : ℚ
deriving DecidableEq, Repr

/-- The update document passed to `dao.updateFields`: the `$inc` entries
(additive numeric increments) and the `$set` entries (field overwrites). -/
structure FieldUpdates where
  inc : List (String × ℚ)
  sets : List (String × JVal)
deriving DecidableEq, Repr

/-- The persisted job-log statement built by `JobRunner.prototype.log`. -/
structure LogStatement where
  object_type : String
  job_id : Option String
  worker_id : String
  name : Option String
  message : String
  metadata : List String
deriving DecidableEq, Repr

/-- One invocation of the persistence collaborator (the DAO). -/
inductive DaoCall
  | save (doc : JobRunDoc)
  | updateFields (collection : String) (keyId : Option String) (u : FieldUpdates)
  | update (stmt : LogStatement)
deriving DecidableEq, Repr

/-- The observable effects of one lifecycle call: the DAO invocations it
issues, in order, and the diagnostic-sink writes it performs. -/
structure Output where
  calls : List DaoCall
  sink : List SinkEntry
deriving DecidableEq, Repr

/-- Instance state of a `JobRunner`, mirroring the fields assigned by the
constructor and `init` (`dao` records whether a DAO handle has been set). -/
structure JobRunner where
  dao : Bool
  id : Option String
  name : Option String
  chunkOfWorkPercentage : ℚ
deriving DecidableEq, Repr

/-- The `JobRunner` constructor: `dao = null`, `id = null`,
`chunkOfWorkPercentage = 1`, and `name` not yet assigned. -/
def JobRunner.construct : JobRunner :=
  { dao := false, id := none, name := none, chunkOfWorkPercentage := 1 }

/-- `JOB_LOG_STORE_NAME` from the source. -/
def JOB_LOG_STORE_NAME : String := "job_log"

/-- `JOB_STORE_NAME` from the source. -/
def JOB_STORE_NAME : String := "job_run"

/-- `DEFAULT_START_STATUS` from the source. -/
def DEFAULT_START_STATUS : String := "RUNNING"

/-- `DEFAULT_DONE_STATUS` from the source. -/
def DEFAULT_DONE_STATUS : String := "COMPLETED"

/-- `DEFAULT_ERROR_STATUS` from the source. -/
def DEFAULT_ERROR_STATUS : String := "ERRORED"

/-- JavaScript `a || d` for a possibly-absent string `a`: both `undefined`
and the empty string are falsy and select the default. -/
def jsOr : Option String → String → String
  | none, d => d
  | some t, d => if t = "" then d else t

/-- JavaScript string conversion of a possibly-absent string property
(`undefined` prints as `"undefined"` under string interpolation). -/
def optStr : Option String → String
  | some t => t
  | none => "undefined"

/-- `JobRunner.prototype.init`: assigns the DAO handle, the id
(`jobId || pb.utils.uniqueId().toString()`, the generated identifier being
the `freshId` input) and the name (`name || this.id`), and returns the
instance. -/
def JobRunner.init (s : JobRunner) (name jobId : Option String) (freshId : String) : JobRunner :=
  let idv := jsOr jobId freshId
  { s with dao := true, id := some idv, name := some (jsOr name idv) }

/-- `JobRunner.prototype.getId`. -/
def JobRunner.getId (s : JobRunner) : Option String :=
  s.id

/-- The message of the `Error` thrown by `setChunkOfWorkPercentage`. -/
def chunkRangeMessage : String :=
  "The chunkOfWorkPercentage must be a value between 0 (exclusive) and 1 (inclusive)"

/-- `JobRunner.prototype.setChunkOfWorkPercentage`: throws when
`isNaN(v) || v <= 0 || v > 1` (a `none` argument models NaN / a
non-numeric value), otherwise stores the value.  A thrown error carries
the instance state at the time of the throw. -/
def JobRunner.setChunkOfWorkPercentage (s : JobRunner) (v : Option ℚ) :
    Except (String × JobRunner) JobRunner :=
  match v with
  | none => Except.error (chunkRangeMessage, s)
  | some q =>
    if q ≤ 0 ∨ 1 < q then Except.error (chunkRangeMessage, s)
    else Except.ok { s with chunkOfWorkPercentage := q }

/-- `JobRunner.prototype.getChunkOfWorkPercentage`. -/
def JobRunner.getChunkOfWorkPercentage (s : JobRunner) : ℚ :=
  s.chunkOfWorkPercentage

/-- `JobRunner.prototype.run` on the base prototype: always throws. -/
def JobRunner.run (_s : JobRunner) : Except String Output :=
  Except.error "This function must be overriden by an extending prototype"

/-- Extra arguments beyond the pattern's directives are appended, each
preceded by a space (node's `util.format` behavior for string extras). -/
def restArgsChars : List String → List Char
  | [] => []
  | a :: as => ' ' :: (a.toList ++ restArgsChars as)

/-- Modelled from the spec: node's `util.format` printf-style formatter
(an external collaborator), for the `%s` and `%%` directives this module
uses.  `%s` consumes the next argument, `%%` prints `%`, a directive with
no remaining argument is left unchanged, and leftover arguments are
appended separated by spaces. -/
def formatAux : List Char → List String → List Char
  | [], as => restArgsChars as
  | c :: cs, as =>
    if c = '%' then
      match cs, as with
      | 's' :: cs2, a :: as2 => a.toList ++ formatAux cs2 as2
      | 's' :: cs2, [] => '%' :: 's' :: formatAux cs2 []
      | '%' :: cs2, as2 => '%' :: formatAux cs2 as2
      | cs2, as2 => '%' :: formatAux cs2 as2
    else
      c :: formatAux cs as

/-- String-level wrapper for `formatAux`, the model of `util.format`. -/
def util.format (pattern : String) (args : List String) : String :=
  ⟨formatAux pattern.toList args⟩

/-- `JobRunner.prototype.log`: with no arguments it does nothing;
otherwise it prefixes the first argument with `this.name + ": "`, formats
when interpolation values are present, persists a job-log statement via
`dao.update`, and writes the prefixed pattern with its values to the
diagnostic sink at debug severity.  `workerId` models
`pb.system.getWorkerId()`. -/
def JobRunner.log (s : JobRunner) (workerId : String) (args : List String) : Output :=
  match args with
  | [] => { calls := [], sink := [] }
  | p :: vals =>
    let p0 := optStr s.name ++ ": " ++ p
    let message :=
      match vals with
      | [] => p0
      | _ :: _ => util.format p0 vals
    { calls := [DaoCall.update
        { object_type := JOB_LOG_STORE_NAME, job_id := s.id, worker_id := workerId,
          name := s.name, message := message, metadata := [] }],
      sink := [{ severity := Severity.debug, pattern := p0, args := vals }] }

/-- `JobRunner.prototype.onStart`: builds the job document on top of the
`getIDWhere` key and saves it; the save callback logs an error-severity
diagnostic when the persistence collaborator reports a failure
(`daoErr`). -/
def JobRunner.onStart (s : JobRunner) (status : Option String) (daoErr : Option String) :
    Except String Output :=
  Except.ok
    { calls := [DaoCall.save
        { keyId := s.getId, object_type := JOB_STORE_NAME, name := s.name,
          status := jsOr status DEFAULT_START_STATUS, progress := 0 }],
      sink :=
        match daoErr with
        | some e => [{ severity := Severity.error,
                       pattern := "JobRunner: Failed to mark job as started %s", args := [e] }]
        | none => [] }

/-- A JavaScript value passed as `progressIncrement`: either a valid
numeric value or a non-numeric value carrying its string form. -/
inductive JsNumArg
  | num (q : ℚ)
  | invalid (repr : String)
deriving DecidableEq, Repr

/-- String interpolation of a `progressIncrement` argument. -/
def jsNumArgStr : JsNumArg → String
  | JsNumArg.num q => toString q
  | JsNumArg.invalid r => r

/-- The source guards the write with `updates !== ...` against a fresh
empty object literal.  In JavaScript, `!==` on two objects compares
references and a fresh literal is never reference-equal to `updates`, so
the condition is true for every `updates` value (the adjacent source
comment `ensure we need to update` shows a value-emptiness check was
intended). -/
def updatesNotRefEqualFreshLiteral (_u : FieldUpdates) : Bool := true

/-- `JobRunner.prototype.onUpdate`: logs the update, then builds the
update document — a `$inc` on `progress` when `pb.validation.isFloat`
accepts the increment (modelled from the spec as: the argument is a valid
numeric value) and a `$set` on `status` when
`pb.validation.validateNonEmptyStr` accepts it (modelled from the spec
as: a non-empty string) — and issues it through `dao.updateFields`, whose
callback logs an error-severity diagnostic on persistence failure. -/
def JobRunner.onUpdate (s : JobRunner) (workerId : String) (progressIncrement : JsNumArg)
    (status : Option String) (daoErr : Option String) : Except String Output :=
  let logOut := s.log workerId
    ["Updating job [%s:%s] by %s percent with status: %s",
     optStr s.getId, optStr s.name, jsNumArgStr progressIncrement, optStr status]
  let incs : List (String × ℚ) :=
    match progressIncrement with
    | JsNumArg.num q => [("progress", q)]
    | JsNumArg.invalid _ => []
  let setsL : List (String × JVal) :=
    match status with
    | some t => if t = "" then [] else [("status", JVal.str t)]
    | none => []
  let updates : FieldUpdates := { inc := incs, sets := setsL }
  if updatesNotRefEqualFreshLiteral updates then
    Except.ok
      { calls := logOut.calls ++ [DaoCall.updateFields JOB_STORE_NAME s.getId updates],
        sink := logOut.sink ++
          (match daoErr with
           | some e => [{ severity := Severity.error,
                          pattern := "JobRunner: Failed to update job progress - ", args := [e] }]
           | none => []) }
  else
    Except.ok { calls := logOut.calls, sink := logOut.sink }

/-- The first argument of `onCompleted`: an error-like value (carrying its
stack string), a status string, or an absent/falsy non-string value. -/
inductive JsCompletedArg
  | err (stack : String)
  | str (s : String)
  | undef
deriving DecidableEq, Repr

/-- The `$set` document `onCompleted` sends through `dao.updateFields`:
the resolved status, `progress: 100`, and `error: err ? err.stack :
undefined`. -/
def completedSets (st : String) (er : Option String) : FieldUpdates :=
  { inc := [],
    sets := [("status", JVal.str st), ("progress", JVal.num 100),
             ("error", match er with | some stack => JVal.str stack | none => JVal.undef)] }

/-- `JobRunner.prototype.onCompleted`: when the first argument is an
error it becomes `err` and the status defaults to `ERRORED`; a falsy
first argument defaults the status to `COMPLETED`.  The call logs the
terminal status, then `$set`s `status`, `progress = 100` and `error`
(the error's stack when present, `undefined` otherwise) through
`dao.updateFields`, whose callback logs an error-severity diagnostic on
persistence failure. -/
def JobRunner.onCompleted (s : JobRunner) (workerId : String) (status : JsCompletedArg)
    (err : Option String) (daoErr : Option String) : Except String Output :=
  let se : String × Option String :=
    match status with
    | JsCompletedArg.err stack => (DEFAULT_ERROR_STATUS, some stack)
    | JsCompletedArg.str t => (if t = "" then DEFAULT_DONE_STATUS else t, err)
    | JsCompletedArg.undef => (DEFAULT_DONE_STATUS, err)
  let logOut := s.log workerId
    ["Setting job [%s:%s] as completed with status: %s", optStr s.getId, optStr s.name, se.1]
  let sets : FieldUpdates := completedSets se.1 se.2
  Except.ok
    { calls := logOut.calls ++ [DaoCall.updateFields JOB_STORE_NAME s.getId sets],
      sink := logOut.sink ++
        (match daoErr with
         | some e => [{ severity := Severity.error,
                        pattern := "JobRunner: Failed to update job as completed - %s", args := [e] }]
         | none => []) }

/-- The persisted Job Run Record as an observer reads it back. -/
structure PersistedJob where
  name : Option String
  status : String
  progress : ℚ
  error : Option String
deriving DecidableEq, Repr

/-- Modelled from the spec: the persistence collaborator's `updateFields`
contract, "where `update` distinguishes additive numeric increments from
field overwrites" — `$inc` on `progress` adds to the stored value, `$set`
overwrites `status`, `progress` and `error`, and a `$set` to `undefined`
leaves the field unset. -/
def applyFieldUpdates (rec : PersistedJob) (u : FieldUpdates) : PersistedJob :=
  let r1 :=
    match u.inc.lookup "progress" with
    | some q => { rec with progress := rec.progress + q }
    | none => rec
  let r2 :=
    match u.sets.lookup "status" with
    | some (JVal.str t) => { r1 with status := t }
    | _ => r1
  let r3 :=
    match u.sets.lookup "progress" with
    | some (JVal.num q) => { r2 with progress := q }
    | _ => r2
  match u.sets.lookup "error" with
  | some (JVal.str e2) => { r3 with error := some e2 }
  | some JVal.undef => { r3 with error := none }
  | _ => r3

/-- Sequential application of update documents to the persisted record. -/
def applyFieldUpdatesList (rec : PersistedJob) (us : List FieldUpdates) : PersistedJob :=
  us.foldl applyFieldUpdates rec

/-- Modelled from the spec: `dao.save` persists the document as an upsert
keyed by the job's `id` (§6: `upsert(collectionName, keyQuery, document)`
is used by `onStart`), so the stored record takes the document's fields
and has no `error` field. -/
def applySave (doc : JobRunDoc) : PersistedJob :=
  { name := doc.name, status := doc.status, progress := doc.progress, error := none }

/-- The output of a lifecycle call that did not throw
(the `error` case never arises for the lifecycle calls). -/
def okOut : Except String Output → Output
  | Except.ok o => o
  | Except.error _ => { calls := [], sink := [] }

/-- The update documents an output issues against the job-run store. -/
def Output.jobRunUpdates (o : Output) : List FieldUpdates :=
  o.calls.filterMap fun c =>
    match c with
    | DaoCall.updateFields col _ u => if col = JOB_STORE_NAME then some u else none
    | _ => none

/-- The messages of the job-log statements an output persists. -/
def Output.logMessages (o : Output) : List String :=
  o.calls.filterMap fun c =>
    match c with
    | DaoCall.update stmt => some stmt.message
    | _ => none

/-- The claim predicate for `setChunkOfWorkPercentage` inputs: outside the
interval `(0, 1]`, with `none` standing for NaN / a non-numeric value. -/
def outsideUnitInterval : Option ℚ → Bool
  | none => true
  | some q => decide (q ≤ 0) || decide (1 < q)

/-- An error-severity diagnostic entry carrying a failure's stack string,
as written by the fire-and-forget persistence callbacks. -/
def errorSinkEntry (pat e : String) : SinkEntry :=
  { severity := Severity.error, pattern := pat, args := [e] }

/-- A pattern prefix containing no `%` character passes through the
formatter unchanged. -/
theorem formatAux_append_of_no_percent (cs ds : List Char) (as : List String)
    (h : '%' ∉ cs) : formatAux (cs ++ ds) as = cs ++ formatAux ds as := by
  induction cs with
  | nil => rfl
  | cons c cs ih =>
    have hc : c ≠ '%' := fun hh => h (hh ▸ List.mem_cons_self c cs)
    have h2 : '%' ∉ cs := fun hm => h (List.mem_cons_of_mem c hm)
    show formatAux (c :: (cs ++ ds)) as = c :: (cs ++ formatAux ds as)
    rw [formatAux.eq_def]
    simp only [if_neg hc, ih h2]

/-- String-level corollary: formatting a pattern that starts with a
`%`-free prefix keeps the prefix verbatim. -/
theorem format_of_no_percent_prefix (pre p : String) (as : List String)
    (h : '%' ∉ pre.toList) : util.format (pre ++ p) as = pre ++ util.format p as := by
  apply String.ext
  show formatAux (pre ++ p).toList as = (pre ++ util.format p as).data
  rw [show (pre ++ p).toList = pre.toList ++ p.toList from String.data_append pre p,
    formatAux_append_of_no_percent pre.toList p.toList as h]
  exact (String.data_append pre (util.format p as)).symm

/-- C9: A newly constructed JobRunner, before any call to
setChunkOfWorkPercentage, has getChunkOfWorkPercentage() equal to 1 (the
default work-weight is the whole unit of work). -/
theorem constructor_default_chunk_is_one :
    JobRunner.getChunkOfWorkPercentage JobRunner.construct = 1 := rfl

/-- C10: Calling log() with zero arguments is a complete no-op: no Job
Log Entry is persisted and nothing is written to the diagnostic sink. -/
theorem log_without_arguments_is_noop (s : JobRunner) (workerId : String) :
    JobRunner.log s workerId [] = { calls := [], sink := [] } := rfl

/-- C4: For every value outside (0, 1] — including 0, negative values,
values greater than 1, and non-numeric values — setChunkOfWorkPercentage
raises an invalid-argument error, and the instance's stored
chunkOfWorkPercentage is the same after the failed call as before it
(the error carries the instance state, which is exactly the prior
state `s`). -/
theorem setChunkOfWorkPercentage_rejects_invalid (s : JobRunner) (v : Option ℚ)
    (hv : outsideUnitInterval v = true) :
    JobRunner.setChunkOfWorkPercentage s v = Except.error (chunkRangeMessage, s) := by
  cases v with
  | none => rfl
  | some q =>
    have hq : q ≤ 0 ∨ 1 < q := by
      have := hv
      simp only [outsideUnitInterval, Bool.or_eq_true, decide_eq_true_eq] at this
      exact this
    simp [JobRunner.setChunkOfWorkPercentage, hq]

/-- Witness for C4 at the concrete out-of-range value 2. -/
theorem setChunkOfWorkPercentage_rejects_invalid_witness :
    outsideUnitInterval (some 2) = true ∧
      JobRunner.setChunkOfWorkPercentage JobRunner.construct (some 2) =
        Except.error (chunkRangeMessage, JobRunner.construct) :=
  ⟨by decide, setChunkOfWorkPercentage_rejects_invalid JobRunner.construct (some 2) (by decide)⟩

/-- C1 (evidence of the code bug): with a non-numeric progressIncrement
and an empty status, onUpdate still invokes the persistence
collaborator's updateFields — with an empty update document — because
the JavaScript guard compares the updates object by reference to a fresh
empty object literal and is therefore always true. -/
theorem onUpdate_empty_validation_still_calls_updateFields :
    Output.jobRunUpdates (okOut
      (JobRunner.onUpdate
        { dao := true, id := some "j1", name := some "job", chunkOfWorkPercentage := 1 }
        "w0" (JsNumArg.invalid "bogus") (some "") none)) =
      [{ inc := [], sets := [] }] := by decide

/-- C3: For every failure reported by the persistence collaborator during
onStart, onUpdate, or onCompleted, the lifecycle call does not throw (it
still returns `Except.ok`) and does not propagate the failure to its
caller; the only observable effect of the failure is one error-severity
diagnostic log entry (the DAO calls are unchanged and the sink gains
exactly that entry). -/
theorem persistence_failures_only_logged (s : JobRunner) (workerId : String)
    (st stat : Option String) (pinc : JsNumArg) (carg : JsCompletedArg)
    (cerr : Option String) (e : String) :
    (∃ o1 o2, JobRunner.onStart s st none = Except.ok o1 ∧
      JobRunner.onStart s st (some e) = Except.ok o2 ∧
      o2.calls = o1.calls ∧
      o2.sink = o1.sink ++ [errorSinkEntry "JobRunner: Failed to mark job as started %s" e]) ∧
    (∃ o1 o2, JobRunner.onUpdate s workerId pinc stat none = Except.ok o1 ∧
      JobRunner.onUpdate s workerId pinc stat (some e) = Except.ok o2 ∧
      o2.calls = o1.calls ∧
      o2.sink = o1.sink ++ [errorSinkEntry "JobRunner: Failed to update job progress - " e]) ∧
    (∃ o1 o2, JobRunner.onCompleted s workerId carg cerr none = Except.ok o1 ∧
      JobRunner.onCompleted s workerId carg cerr (some e) = Except.ok o2 ∧
      o2.calls = o1.calls ∧
      o2.sink = o1.sink ++ [errorSinkEntry "JobRunner: Failed to update job as completed - %s" e]) :=
  ⟨⟨_, _, rfl, rfl, rfl, rfl⟩, ⟨_, _, rfl, rfl, rfl, rfl⟩, ⟨_, _, rfl, rfl, rfl, rfl⟩⟩

/-- C5: Progress updates are additive, not absolute: starting from any
persisted progress value, two onUpdate calls with valid numeric
increments leave the persisted progress raised by their sum; in
particular the sequence onUpdate(10), onUpdate(15) raises it by 25. -/
theorem onUpdate_increments_additive (s : JobRunner) (workerId : String)
    (q1 q2 : ℚ) (d1 d2 : Option String) (rec : PersistedJob) :
    (applyFieldUpdatesList rec
        (Output.jobRunUpdates (okOut (JobRunner.onUpdate s workerId (JsNumArg.num q1) none d1)) ++
         Output.jobRunUpdates (okOut (JobRunner.onUpdate s workerId (JsNumArg.num q2) none d2)))).progress =
      rec.progress + (q1 + q2) ∧
    (applyFieldUpdatesList rec
        (Output.jobRunUpdates (okOut (JobRunner.onUpdate s workerId (JsNumArg.num 10) none d1)) ++
         Output.jobRunUpdates (okOut (JobRunner.onUpdate s workerId (JsNumArg.num 15) none d2)))).progress =
      rec.progress + 25 := by
  constructor
  · show rec.progress + q1 + q2 = rec.progress + (q1 + q2)
    ring
  · show rec.progress + 10 + 15 = rec.progress + 25
    ring

/-- C6: For every initialized job, calling onStart with no status
argument persists (an upsert under the spec-modelled save contract) a
job run record keyed by the job's id whose status is RUNNING, whose
progress is 0, and whose name is the job's name. -/
theorem onStart_persists_running_record (s : JobRunner) (daoErr : Option String)
    (jid nm : String) (hid : s.id = some jid) (hnm : s.name = some nm) :
    ∃ o, JobRunner.onStart s none daoErr = Except.ok o ∧
      o.calls = [DaoCall.save
        { keyId := some jid, object_type := "job_run", name := some nm,
          status := "RUNNING", progress := 0 }] ∧
      applySave
        { keyId := some jid, object_type := "job_run", name := some nm,
          status := "RUNNING", progress := 0 } =
        { name := some nm, status := "RUNNING", progress := 0, error := none } := by
  refine ⟨_, rfl, ?_, rfl⟩
  simp [JobRunner.onStart, JobRunner.getId, hid, hnm, jsOr, JOB_STORE_NAME, DEFAULT_START_STATUS]

/-- Witness for C6: a job initialized with name "reindex" and a generated
id "uid1". -/
theorem onStart_persists_running_record_witness :
    (JobRunner.construct.init (some "reindex") none "uid1").id = some "uid1" ∧
    (JobRunner.construct.init (some "reindex") none "uid1").name = some "reindex" ∧
    ∃ o, JobRunner.onStart (JobRunner.construct.init (some "reindex") none "uid1") none none =
        Except.ok o ∧
      o.calls = [DaoCall.save
        { keyId := some "uid1", object_type := "job_run", name := some "reindex",
          status := "RUNNING", progress := 0 }] ∧
      applySave
        { keyId := some "uid1", object_type := "job_run", name := some "reindex",
          status := "RUNNING", progress := 0 } =
        { name := some "reindex", status := "RUNNING", progress := 0, error := none } :=
  ⟨rfl, rfl,
    onStart_persists_running_record (JobRunner.construct.init (some "reindex") none "uid1")
      none "uid1" "reindex" rfl rfl⟩

/-- C7: init uses a supplied non-empty jobId as the id returned by
getId; when jobId is absent or empty, getId returns the freshly
generated non-empty identifier; the name is the supplied name, falling
back to the id when the name is absent or empty; and the returned
instance is the same instance (its work-weight is untouched). -/
theorem init_assigns_id_and_name (s : JobRunner) (nm jobId : Option String)
    (freshId : String) (hf : freshId ≠ "") :
    (∀ j, jobId = some j → j ≠ "" → (s.init nm jobId freshId).getId = some j) ∧
    ((jobId = none ∨ jobId = some "") →
      (s.init nm jobId freshId).getId = some freshId ∧ freshId ≠ "") ∧
    (∀ n, nm = some n → n ≠ "" → (s.init nm jobId freshId).name = some n) ∧
    ((nm = none ∨ nm = some "") →
      (s.init nm jobId freshId).name = (s.init nm jobId freshId).getId) ∧
    (s.init nm jobId freshId).chunkOfWorkPercentage = s.chunkOfWorkPercentage := by
  refine ⟨?_, ?_, ?_, ?_, rfl⟩
  · rintro j rfl hj
    simp [JobRunner.init, JobRunner.getId, jsOr, hj]
  · rintro (rfl | rfl)
    · exact ⟨by simp [JobRunner.init, JobRunner.getId, jsOr], hf⟩
    · exact ⟨by simp [JobRunner.init, JobRunner.getId, jsOr], hf⟩
  · rintro n rfl hn
    simp [JobRunner.init, jsOr, hn]
  · rintro (rfl | rfl)
    · simp [JobRunner.init, JobRunner.getId, jsOr]
    · simp [JobRunner.init, JobRunner.getId, jsOr]

/-- Witness for C7: a generated id "uid1" is non-empty, and a supplied
non-empty jobId "j1" is what getId returns. -/
theorem init_assigns_id_and_name_witness :
    ("uid1" : String) ≠ "" ∧
    (JobRunner.construct.init (some "reindex") (some "j1") "uid1").getId = some "j1" :=
  ⟨by decide,
    (init_assigns_id_and_name JobRunner.construct (some "reindex") (some "j1") "uid1"
      (by decide)).1 "j1" rfl (by decide)⟩

/-- The single job-run update document issued by `onCompleted`, with the
status/error resolution made explicit per argument shape. -/
theorem onCompleted_jobRunUpdates (s : JobRunner) (workerId : String)
    (carg : JsCompletedArg) (cerr daoErr : Option String) :
    Output.jobRunUpdates (okOut (JobRunner.onCompleted s workerId carg cerr daoErr)) =
      [completedSets
        (match carg with
         | JsCompletedArg.err _ => DEFAULT_ERROR_STATUS
         | JsCompletedArg.str t => if t = "" then DEFAULT_DONE_STATUS else t
         | JsCompletedArg.undef => DEFAULT_DONE_STATUS)
        (match carg with
         | JsCompletedArg.err stack => some stack
         | JsCompletedArg.str _ => cerr
         | JsCompletedArg.undef => cerr)] := by
  cases carg <;> rfl

/-- Applying the `$set` document of `onCompleted` to any prior persisted
record overwrites status, forces progress to 100, and sets or unsets the
error detail. -/
theorem applyFieldUpdates_completedSets (r : PersistedJob) (st : String)
    (er : Option String) :
    applyFieldUpdates r (completedSets st er) =
      { name := r.name, status := st, progress := 100, error := er } := by
  cases er <;> rfl

/-- C2: onCompleted always persists progress 100; an error-like first
argument is treated as the error and the persisted status is ERRORED; an
absent or falsy status (that is not an error) persists COMPLETED; a
non-empty status string is persisted as given even when err is also
supplied; and the error detail string is persisted exactly when an error
is present. -/
theorem onCompleted_persists_terminal_state (s : JobRunner) (workerId : String)
    (carg : JsCompletedArg) (cerr daoErr : Option String) (rec : PersistedJob) :
    ((applyFieldUpdatesList rec (Output.jobRunUpdates (okOut
        (JobRunner.onCompleted s workerId carg cerr daoErr)))).progress = 100) ∧
    ((applyFieldUpdatesList rec (Output.jobRunUpdates (okOut
        (JobRunner.onCompleted s workerId carg cerr daoErr)))).status =
      match carg with
      | JsCompletedArg.err _ => "ERRORED"
      | JsCompletedArg.str t => if t = "" then "COMPLETED" else t
      | JsCompletedArg.undef => "COMPLETED") ∧
    ((applyFieldUpdatesList rec (Output.jobRunUpdates (okOut
        (JobRunner.onCompleted s workerId carg cerr daoErr)))).error =
      match carg with
      | JsCompletedArg.err stack => some stack
      | JsCompletedArg.str _ => cerr
      | JsCompletedArg.undef => cerr) := by
  rw [onCompleted_jobRunUpdates]
  show (applyFieldUpdates rec (completedSets _ _)).progress = 100 ∧
    (applyFieldUpdates rec (completedSets _ _)).status = _ ∧
    (applyFieldUpdates rec (completedSets _ _)).error = _
  rw [applyFieldUpdates_completedSets]
  exact ⟨rfl, rfl, rfl⟩

/-- C8 (counterexample): for a job whose name itself contains a %s
directive, the persisted message differs from the claim's name-prefixed
formatting of the pattern: the code formats the already-prefixed pattern,
so the interpolation value lands in the name's directive instead. -/
theorem log_prefix_claim_fails_for_name_with_directive :
    Output.logMessages
      (JobRunner.log
        { dao := true, id := some "j1", name := some "a%s", chunkOfWorkPercentage := 1 }
        "w0" ["x=%s", "5"]) = ["a5: x=%s"] ∧
    ("a5: x=%s" : String) ≠ "a%s" ++ ": " ++ util.format "x=%s" ["5"] := by
  constructor
  · decide
  · decide

/-- C8 (amended): each log call persists exactly one Job Log Entry whose
message is the job's name, the prefix separator, and — when at least one
interpolation value is supplied — the printf-style formatting of the
pattern with those values (the raw pattern when no values are supplied),
provided the job's name contains no % directive character; the same
name-prefixed content (the prefixed pattern and its values) is emitted
to the diagnostic sink at debug severity. -/
theorem log_formats_name_prefixed_message (s : JobRunner) (workerId nm p : String)
    (vals : List String) (hnm : s.name = some nm) (hp : '%' ∉ nm.toList) :
    (s.log workerId (p :: vals)).calls =
      [DaoCall.update
        { object_type := "job_log", job_id := s.id, worker_id := workerId, name := some nm,
          message := nm ++ ": " ++ (match vals with | [] => p | _ :: _ => util.format p vals),
          metadata := [] }] ∧
    (s.log workerId (p :: vals)).sink =
      [{ severity := Severity.debug, pattern := nm ++ ": " ++ p, args := vals }] := by
  have hpre : '%' ∉ (nm ++ ": ").toList := by
    have hd : (nm ++ ": ").toList = nm.toList ++ (": " : String).toList :=
      String.data_append nm ": "
    rw [hd]
    intro hmem
    rcases List.mem_append.mp hmem with h1 | h2
    · exact hp h1
    · simp at h2
  cases vals with
  | nil =>
    constructor
    · simp [JobRunner.log, hnm, optStr, JOB_LOG_STORE_NAME]
    · simp [JobRunner.log, hnm, optStr]
  | cons v vs =>
    constructor
    · simp only [JobRunner.log, hnm, optStr, JOB_LOG_STORE_NAME,
        format_of_no_percent_prefix (nm ++ ": ") p (v :: vs) hpre]
    · simp [JobRunner.log, hnm, optStr]

/-- Witness for C8 (amended) at the spec's example `log("x=%s", 5)` on a
job named "job". -/
theorem log_formats_name_prefixed_message_witness :
    ({ dao := true, id := some "j1", name := some "job",
       chunkOfWorkPercentage := 1 } : JobRunner).name = some "job" ∧
    ('%' ∉ ("job" : String).toList) ∧
    (JobRunner.log
      { dao := true, id := some "j1", name := some "job", chunkOfWorkPercentage := 1 }
      "w0" ["x=%s", "5"]).calls =
      [DaoCall.update
        { object_type := "job_log", job_id := some "j1", worker_id := "w0",
          name := some "job", message := "job: x=5", metadata := [] }] ∧
    (JobRunner.log
      { dao := true, id := some "j1", name := some "job", chunkOfWorkPercentage := 1 }
      "w0" ["x=%s", "5"]).sink =
      [{ severity := Severity.debug, pattern := "job: x=%s", args := ["5"] }] :=
  ⟨rfl, by decide,
    (log_formats_name_prefixed_message
      { dao := true, id := some "j1", name := some "job", chunkOfWorkPercentage := 1 }
      "w0" "job" "x=%s" ["5"] rfl (by decide)).1,
    (log_formats_name_prefixed_message
      { dao := true, id := some "j1", name := some "job", chunkOfWorkPercentage := 1 }
      "w0" "job" "x=%s" ["5"] rfl (by decide)).2⟩
